import Mathlib

/-!
Verification development for the chat workflow core of a retrieval-augmented
financial chatbot.  The definitions below are a shallow embedding of:

* `src/app/chatbot/chat/workflow/graph.py` (`ChatOrchestrator`: the nodes
  `planner`, `supervisor`, `retrieval`, `generator`, the router
  `planner_route`, and the compiled graph),
* `src/app/chatbot/chat/utils.py` (`extract_tool_calls`),
* `src/app/chatbot/ingestion/services/vector_store.py`
  (`QdrantVectorStore.similarity_search`),
* `src/app/chatbot/chat/schemas/model.py` (`Plan`, `Supervisor`) and
  `src/app/chatbot/chat/schemas/state.py` (the workflow state record),
* `src/app/routers/chat.py` (`chat_response`, `stream_chat_response`).

External services (the chat model, the MCP tool server, the Qdrant client,
the Redis cache backend) are modelled as an `Env` of oracles: each network
call is a field of `Env`, indexed by the invocation count where a node can
run several times in one request.  Python exceptions are modelled with
`Except String`, the string being `str(e)`.
-/

/-- The graph's node names, plus the sentinel `__end__` (`endNode`).
`START` needs no representation: the graph has a single edge
`START -> planner`. -/
inductive Node where
  | planner
  | supervisor
  | retrieval
  | generator
  | endNode
deriving DecidableEq, Repr

/-- One cache entry as stored by `RedisCache`: the Python dict
`\x7b"response": ..., "metadata": \x7b"tools_called": ...\x7d\x7d`.
`response` is `Option String` because the stored response can be Python
`None` (the generator caches `final_output` unvalidated); `tools_called`
is `Option` because `planner` reads it with
`cached["metadata"].get("tools_called", [])`. -/
structure CacheEntry where
  response : Option String
  tools_called : Option (List String)
deriving DecidableEq, Repr

/-- The run's ledger of cache writes: newest entry first. -/
def CacheMap := List (String × CacheEntry)
deriving DecidableEq, Repr

/-- One Qdrant search hit: `result.payload.get("content", "")` means the
`content` key of the payload may be absent, hence `Option String`. -/
structure SearchHit where
  content : Option String
deriving DecidableEq, Repr

/-- One entry of `additional_kwargs["tool_calls"]`; `extract_tool_calls`
reads only `tool["function"]["name"]`. -/
structure ToolCall where
  function_name : String
deriving DecidableEq, Repr

/-- One message of the agent output `output["messages"]`, projected to the
attributes `extract_tool_calls` reads: whether
`m.__class__.__name__ == "AIMessage"`, the string `m.content`, and
`m.additional_kwargs["tool_calls"]` when that key is present. -/
structure AgentMsg where
  is_ai : Bool
  content : String
  tool_calls : Option (List ToolCall)
deriving DecidableEq, Repr

/-- `Plan` from `schemas/model.py`: the structured planning output, a list
of step descriptions. -/
structure Plan where
  steps : List String
deriving DecidableEq, Repr

/-- `Supervisor` from `schemas/model.py`: the structured supervision
output.  Its `next_node` field is declared
`Literal["retrieval", "generator", "__end__"]`; the pydantic validation of
that literal is the function `parse_next_node` below. -/
structure Supervisor where
  next_node : Node
deriving DecidableEq, Repr

/-- The arguments the supervisor chain is invoked with
(`chain.ainvoke(\x7b...\x7d)` in `ChatOrchestrator.supervisor`), after the
`state.get` defaults are applied.  `response` is `Option String` because
`state.get("response", ...)` returns Python `None` when the key is present
with value `None`. -/
structure SupArgs where
  query : String
  plan : List String
  docs : String
  response : Option String
deriving DecidableEq, Repr

/-- A partial state update as returned by a node (a langgraph update dict).
`none` means the key is absent from the dict.  For `response`,
`some none` means the key is present with Python `None` as its value. -/
structure Update where
  message : Option String := none
  plan : Option (List String) := none
  tools : Option String := none
  retrieved_docs : Option String := none
  response : Option (Option String) := none
  tools_used : Option (List String) := none
  is_cached : Option Bool := none
deriving DecidableEq, Repr

/-- The workflow state (`OverallState` from `schemas/state.py`): `user_id`
and `message` come from `InputState`; every other key starts absent
(`none`) and is filled by node updates.  `response` distinguishes absent
(`none`) from present-with-`None` (`some none`). -/
structure ChatState where
  user_id : String
  message : String
  plan : Option (List String) := none
  tools : Option String := none
  retrieved_docs : Option String := none
  response : Option (Option String) := none
  tools_used : Option (List String) := none
  is_cached : Option Bool := none
deriving DecidableEq, Repr

/-- A `langgraph.types.Command`: the node to go to and the state update
carried along (`Command(goto=...)` without `update` carries the empty
update). -/
structure Command where
  goto : Node
  update : Update
deriving DecidableEq, Repr

/-- The oracles for every external call the workflow performs.  `Nat`
arguments index the invocation count of the corresponding node within one
request, so distinct loop iterations may observe distinct answers. -/
structure Env where
  /-- Modelled from the spec: `RedisCache.get_cached` (the file
  `redis_cache.py` is not present under `src/`).  Per the spec the cache
  lookup returns the stored entry or explicit absent and never raises for
  a miss; a raised error models a failing cache backend call, which the
  planner's `try` block turns into a fatal request failure. -/
  cacheGet : String → Except String (Option CacheEntry)
  /-- Modelled from the spec: whether the best-effort cache write performed
  by the k-th generator invocation takes effect. -/
  storeOk : Nat → Bool
  /-- `mcp_manager.get_tools_json()`. -/
  toolsJson : Except String String
  /-- The planning chain `build_chain(planning_prompt(), Plan).ainvoke`
  applied to the query and the tools JSON; errors cover both model-call
  failures and structured-output validation failures. -/
  planCall : String → String → Except String Plan
  /-- The raw `next_node` value produced by the supervision model at the
  k-th supervisor invocation, before the pydantic `Literal` validation
  (`parse_next_node`); `Except.error` is a model-call failure. -/
  supCall : Nat → SupArgs → Except String String
  /-- `qdrant_client.search` at the k-th retrieval invocation, applied to
  the stripped query that was embedded. -/
  qdrantSearch : Nat → String → Except String (List SearchHit)
  /-- `mcp_manager.get_tools()` at the k-th generator invocation; the tool
  objects themselves are only forwarded to the agent, so the model keeps
  just success or failure. -/
  getTools : Nat → Except String Unit
  /-- The ReAct agent run (`build_agent(...).ainvoke`) at the k-th
  generator invocation, applied to the user message; on success it yields
  `output["messages"]`. -/
  agentRun : Nat → String → Except String (List AgentMsg)

/-- Modelled from the spec: `RedisCache.store` (the file `redis_cache.py`
is not present under `src/`).  Per the spec, `store(query, response,
metadata)` is best-effort: failures to write must not fail the overall
request, so the model never raises and a failed write (`ok = false`)
leaves the cache unchanged. -/
def store (ok : Bool) (cache : CacheMap) (query : String)
    (response : Option String) (tools_called : List String) : CacheMap :=
  if ok then (query, { response := response, tools_called := some tools_called }) :: cache
  else cache

/-- Python's `s.strip() == ""` test: a string strips to the empty string
exactly when every character is whitespace. -/
def strip_is_empty (s : String) : Bool :=
  s.data.all (fun c => c.isWhitespace)

/-- `extract_tool_calls` from `src/app/chatbot/chat/utils.py`: collects
every `additional_kwargs["tool_calls"]` entry in message order, projects
the tool names, and takes the content of the last `AIMessage` whose
content is truthy (`m.content and ...`) and does not strip to the empty
string (`None` when there is none). -/
def extract_tool_calls (messages : List AgentMsg) : List String × Option String :=
  let tool_calls := messages.foldl (fun acc m => acc ++ m.tool_calls.getD []) []
  let tool_names := tool_calls.map (fun tool => tool.function_name)
  let assistant_msgs := messages.filter
    (fun m => m.is_ai && !(m.content == "") && !(strip_is_empty m.content))
  (tool_names, assistant_msgs.getLast?.map (fun m => m.content))

/-- `QdrantVectorStore.similarity_search` from
`src/app/chatbot/ingestion/services/vector_store.py`: raises
`ValueError("Query cannot be empty")` for a falsy query; otherwise embeds
`query.strip()` and searches, and any error inside the `try` block is
caught and yields the empty list.  On success it returns the
`payload.get("content", "")` of each hit, in ranking order. -/
def similarity_search (env : Env) (k : Nat) (query : String) :
    Except String (List String) :=
  if query = "" then .error "Query cannot be empty"
  else
    match env.qdrantSearch k query.trim with
    | .error _ => .ok []
    | .ok hits => .ok (hits.map (fun hit => hit.content.getD ""))

/-- The pydantic validation of `Supervisor.next_node`: exactly the three
literals `"retrieval"`, `"generator"`, `"__end__"` are accepted; anything
else is rejected before it can be applied as a routing decision. -/
def parse_next_node (raw : String) : Option Supervisor :=
  if raw = "retrieval" then some { next_node := Node.retrieval }
  else if raw = "generator" then some { next_node := Node.generator }
  else if raw = "__end__" then some { next_node := Node.endNode }
  else none

/-- The supervision chain
`build_chain(supervision_prompt(), schema=Supervisor).ainvoke`: the raw
model output is validated by `parse_next_node`; a validation failure is a
raised exception, exactly like a model-call failure. -/
def run_supervision_chain (env : Env) (k : Nat) (args : SupArgs) :
    Except String Supervisor :=
  match env.supCall k args with
  | .error e => .error e
  | .ok raw =>
    match parse_next_node raw with
    | some sup => .ok sup
    | none => .error ("Invalid next_node value: " ++ raw)

/-- The argument dict of the supervision chain, built in
`ChatOrchestrator.supervisor` with `state.get` defaults `[]`,
`"No documents."` and `"No response so far."`. -/
def supArgs (s : ChatState) : SupArgs :=
  { query := s.message
    plan := s.plan.getD []
    docs := s.retrieved_docs.getD "No documents."
    response :=
      match s.response with
      | none => some "No response so far."
      | some v => v }

/-- `ChatOrchestrator.planner`: look the message up in the cache; on a hit
return the cached payload with `is_cached = True` (no planning call); on a
miss fetch the tools JSON, run the planning chain and return the plan.
Any exception escapes (`raise` in the `except` block re-raises). -/
def planner (env : Env) (s : ChatState) : Except String Update :=
  match env.cacheGet s.message with
  | .error e => .error e
  | .ok (some cached) =>
    .ok { response := some cached.response
          tools_used := some (cached.tools_called.getD [])
          is_cached := some true }
  | .ok none =>
    match env.toolsJson with
    | .error e => .error e
    | .ok tools_json =>
      match env.planCall s.message tools_json with
      | .error e => .error e
      | .ok response =>
        .ok { message := some s.message
              plan := some response.steps
              tools := some tools_json }

/-- The apology update written by `ChatOrchestrator.supervisor` when the
decision call errors. -/
def supervisorApology : Update :=
  { response := some (some "Sorry, I encountered an error while supervising the workflow.") }

/-- `ChatOrchestrator.supervisor`: run the supervision chain and go to the
decided node with no state update; if the chain raises (model failure or
rejected `next_node`), go to `__end__` with the apology response. -/
def supervisor (env : Env) (k : Nat) (s : ChatState) : Command :=
  match run_supervision_chain env k (supArgs s) with
  | .ok response => { goto := response.next_node, update := {} }
  | .error _ => { goto := Node.endNode, update := supervisorApology }

/-- The `"Document i: \n<content>"` blocks of
`ChatOrchestrator.retrieval`, joined by blank lines, in the order the
index returned the documents. -/
def formatted_docs (docs : List String) : String :=
  String.intercalate "\n\n"
    (docs.enum.map (fun p => "Document " ++ toString (p.1 + 1) ++ ": \n" ++ p.2))

/-- `ChatOrchestrator.retrieval`: search the vector store for the message;
zero results write the sentinel, `n ≥ 1` results write the numbered
blocks, a raised error writes the empty string; every branch goes back to
the supervisor. -/
def retrieval (env : Env) (k : Nat) (s : ChatState) : Command :=
  match similarity_search env k s.message with
  | .error _ => { goto := Node.supervisor, update := { retrieved_docs := some "" } }
  | .ok retrieved_docs =>
    if retrieved_docs.length = 0 then
      { goto := Node.supervisor
        update := { retrieved_docs := some "No documents found for the query." } }
    else
      { goto := Node.supervisor
        update := { retrieved_docs := some (formatted_docs retrieved_docs) } }

/-- The error command of `ChatOrchestrator.generator`: apology with the
exception text, empty tool list, back to the supervisor. -/
def generatorErrCmd (e : String) : Command :=
  { goto := Node.supervisor
    update :=
      { response := some (some ("Sorry, I encountered an error while generating the response: " ++ e))
        tools_used := some [] } }

/-- `ChatOrchestrator.generator`: fetch the tools, run the ReAct agent on
the message, extract the tool names and final output, store them in the
cache (best-effort), and go back to the supervisor with `response` and
`tools_used`; any exception in the `try` block yields the apology command
and leaves the cache untouched. -/
def generator (env : Env) (k : Nat) (cache : CacheMap) (s : ChatState) :
    Command × CacheMap :=
  match env.getTools k with
  | .error e => (generatorErrCmd e, cache)
  | .ok _ =>
    match env.agentRun k s.message with
    | .error e => (generatorErrCmd e, cache)
    | .ok msgs =>
      let extracted := extract_tool_calls msgs
      let cache2 := store (env.storeOk k) cache s.message extracted.2 extracted.1
      ({ goto := Node.supervisor
         update := { response := some extracted.2, tools_used := some extracted.1 } },
       cache2)

/-- `ChatOrchestrator.planner_route`: `__end__` when
`state.get("is_cached") == True`, else `supervisor`. -/
def planner_route (s : ChatState) : Node :=
  if s.is_cached = some true then Node.endNode else Node.supervisor

/-- Merge one update-dict value into a state field: a present key
overwrites, an absent key keeps the old value. -/
def mergeField {α : Type} (new : Option α) (old : Option α) : Option α :=
  match new with
  | some v => some v
  | none => old

/-- Apply a node's update dict to the state (langgraph's channel merge for
plain, last-value channels). -/
def applyUpdate (s : ChatState) (u : Update) : ChatState :=
  { user_id := s.user_id
    message := u.message.getD s.message
    plan := mergeField u.plan s.plan
    tools := mergeField u.tools s.tools
    retrieved_docs := mergeField u.retrieved_docs s.retrieved_docs
    response := mergeField u.response s.response
    tools_used := mergeField u.tools_used s.tools_used
    is_cached := mergeField u.is_cached s.is_cached }

/-- The graph-level error of one run: a node raised (`nodeError str(e)`),
or the recursion limit was reached (`GraphRecursionError`). -/
inductive GErr where
  | nodeError (msg : String)
  | recursionLimit
deriving DecidableEq, Repr

/-- The outcome of one graph run: the per-node update stream in execution
order together with the final state and the cache-write ledger, or the
update stream produced before an error. -/
inductive RunResult where
  | ok (updates : List (Node × Update)) (final : ChatState) (cache : CacheMap)
  | err (updates : List (Node × Update)) (e : GErr)
deriving DecidableEq, Repr

/-- The compiled graph's execution loop.  `build_graph` wires
`START -> planner`, the conditional edge `planner_route` after `planner`,
and dynamic `Command(goto=...)` dispatch out of `supervisor`, `retrieval`
and `generator`; a `Command` whose `goto` is `__end__` terminates the run
(the static `supervisor -> END` edge adds no behaviour beyond the
`Command` routing).  Each node execution consumes one unit of the
recursion limit; exhausting it raises `GraphRecursionError`.  The `kSup`,
`kRet`, `kGen` counters index the oracle calls of the re-entrant nodes
and `acc` accumulates the executed updates in reverse. -/
def go (env : Env) (fuel : Nat) (node : Node) (s : ChatState) (cache : CacheMap)
    (kSup kRet kGen : Nat) (acc : List (Node × Update)) : RunResult :=
  match fuel with
  | 0 => .err acc.reverse .recursionLimit
  | fuel + 1 =>
    match node with
    | .planner =>
      match planner env s with
      | .error e => .err acc.reverse (.nodeError e)
      | .ok u =>
        let s2 := applyUpdate s u
        let acc2 := (Node.planner, u) :: acc
        match planner_route s2 with
        | .endNode => .ok acc2.reverse s2 cache
        | next => go env fuel next s2 cache kSup kRet kGen acc2
    | .supervisor =>
      let c := supervisor env kSup s
      let s2 := applyUpdate s c.update
      let acc2 := (Node.supervisor, c.update) :: acc
      match c.goto with
      | .endNode => .ok acc2.reverse s2 cache
      | next => go env fuel next s2 cache (kSup + 1) kRet kGen acc2
    | .retrieval =>
      let c := retrieval env kRet s
      let s2 := applyUpdate s c.update
      let acc2 := (Node.retrieval, c.update) :: acc
      match c.goto with
      | .endNode => .ok acc2.reverse s2 cache
      | next => go env fuel next s2 cache kSup (kRet + 1) kGen acc2
    | .generator =>
      let r := generator env kGen cache s
      let s2 := applyUpdate s r.1.update
      let acc2 := (Node.generator, r.1.update) :: acc
      match r.1.goto with
      | .endNode => .ok acc2.reverse s2 r.2
      | next => go env fuel next s2 r.2 kSup kRet (kGen + 1) acc2
    | .endNode => .ok acc.reverse s cache

/-- The initial state of one request: the `InputState` dict. -/
def initState (user_id message : String) : ChatState :=
  { user_id := user_id, message := message }

/-- `graph.ainvoke` / `graph.astream` on the input dict, with the given
recursion limit: execution starts at `planner` with an empty cache-write
ledger. -/
def graph_run (env : Env) (recursion_limit : Nat) (user_id message : String) :
    RunResult :=
  go env recursion_limit Node.planner (initState user_id message) [] 0 0 0 []

/-- The detail string the HTTP layer extracts from a graph error
(`str(e)`). -/
def errStr : GErr → String
  | .nodeError msg => msg
  | .recursionLimit => "GraphRecursionError: recursion limit reached"

/-- The HTTP outcome of the non-streaming endpoint: a 200 body or an
`HTTPException` with status and detail. -/
inductive HttpResult where
  | ok (response : String)
  | err (status : Nat) (detail : String)
deriving DecidableEq, Repr

/-- `chat_response` from `src/app/routers/chat.py`: run the graph with
`recursion_limit = 10` and return `ChatResponse(response=output["response"])`;
any exception (a propagated node error, `GraphRecursionError`, a missing
`response` key, or — modelled from the spec, `app/models.py` being absent
from `src/` — the `ChatResponse` validation rejecting a non-string) is
turned into an `HTTPException(500, str(e))`. -/
def chat_response (env : Env) (user_id message : String) : HttpResult :=
  match graph_run env 10 user_id message with
  | .err _ e => .err 500 (errStr e)
  | .ok _ final _ =>
    match final.response with
    | some (some r) => .ok r
    | some none => .err 500 "ChatResponse validation failed: response is None"
    | none => .err 500 "KeyError: response"

/-- The yield predicate of `generate_stream` in `stream_chat_response`:
a chunk is yielded when the node's update dict has a truthy `response`
value (so neither an absent key, nor `None`, nor the empty string). -/
def yield_of (p : Node × Update) : Option String :=
  match p.2.response with
  | some (some r) => if r = "" then none else some r
  | _ => none

/-- The sequence of response values yielded by `stream_chat_response`
(`src/app/routers/chat.py`), without the `"\n"` framing each yielded
f-string appends: the graph is streamed with no explicit config, hence
with the graph library's default recursion limit of 25; every truthy
`response` update is yielded as it is produced, and an error during
streaming is caught inside the generator and yielded as a final
`"Error: <str(e)>"` chunk instead of being propagated. -/
def stream_chunks (env : Env) (user_id message : String) : List String :=
  match graph_run env 25 user_id message with
  | .ok updates _ _ => updates.filterMap yield_of
  | .err updates e => updates.filterMap yield_of ++ ["Error: " ++ errStr e]

/-- The HTTP status of the streaming endpoint: the `StreamingResponse` is
returned before the graph runs, and every error inside `generate_stream`
is caught and yielded as a chunk, so the endpoint answers 200. -/
def stream_status (_env : Env) (_user_id _message : String) : Nat := 200

/-- A baseline oracle environment for concrete runs: cache miss, a
one-step plan, a supervisor that immediately terminates, no documents, an
agent that returns no messages. -/
def baseEnv : Env :=
  { cacheGet := fun _ => .ok none
    storeOk := fun _ => true
    toolsJson := .ok "[]"
    planCall := fun _ _ => .ok { steps := ["step 1"] }
    supCall := fun _ _ => .ok "__end__"
    qdrantSearch := fun _ _ => .ok []
    getTools := fun _ => .ok ()
    agentRun := fun _ _ => .ok [] }

/-- The cache entry used by the cache-hit environment. -/
def entryHit : CacheEntry :=
  { response := some "cached answer", tools_called := some ["stock_tool"] }

/-- An environment whose cache holds an entry for the message `"hello"`. -/
def envHit : Env :=
  { baseEnv with cacheGet := fun q => .ok (if q = "hello" then some entryHit else none) }

/-- An environment whose planner fails: the tools fetch raises. -/
def envPlanFail : Env := { baseEnv with toolsJson := .error "boom" }

/-- An environment whose supervisor always routes to retrieval, driving
the loop into the recursion cap. -/
def envLoop : Env := { baseEnv with supCall := fun _ _ => .ok "retrieval" }

/-- A run that succeeds with some amount of fuel succeeds identically with
any larger amount: the execution trace does not depend on the cap once the
cap is not hit. -/
theorem go_mono (env : Env) :
    ∀ (f g : Nat), f ≤ g →
    ∀ node s cache k1 k2 k3 acc us fi ca,
    go env f node s cache k1 k2 k3 acc = RunResult.ok us fi ca →
    go env g node s cache k1 k2 k3 acc = RunResult.ok us fi ca := by
  intro f
  induction f with
  | zero =>
    intro g hg node s cache k1 k2 k3 acc us fi ca h
    simp [go] at h
  | succ f ih =>
    intro g hg node s cache k1 k2 k3 acc us fi ca h
    cases g with
    | zero => exact absurd hg (Nat.not_succ_le_zero f)
    | succ g =>
      have hfg : f ≤ g := Nat.succ_le_succ_iff.mp hg
      cases node with
      | planner =>
        simp only [go] at h ⊢
        cases hp : planner env s with
        | error e => simp [hp] at h
        | ok u =>
          simp only [hp] at h ⊢
          cases hr : planner_route (applyUpdate s u) <;> simp only [hr] at h ⊢
          case endNode => exact h
          all_goals exact ih g hfg _ _ _ _ _ _ _ _ _ _ h
      | supervisor =>
        simp only [go] at h ⊢
        cases hc : (supervisor env k1 s).goto <;> simp only [hc] at h ⊢
        case endNode => exact h
        all_goals exact ih g hfg _ _ _ _ _ _ _ _ _ _ h
      | retrieval =>
        simp only [go] at h ⊢
        cases hc : (retrieval env k2 s).goto <;> simp only [hc] at h ⊢
        case endNode => exact h
        all_goals exact ih g hfg _ _ _ _ _ _ _ _ _ _ h
      | generator =>
        simp only [go] at h ⊢
        cases hc : (generator env k3 cache s).1.goto <;> simp only [hc] at h ⊢
        case endNode => exact h
        all_goals exact ih g hfg _ _ _ _ _ _ _ _ _ _ h
      | endNode =>
        simp only [go] at h ⊢
        exact h

/-- A successful run executes at most `fuel` nodes beyond the updates
already accumulated. -/
theorem go_ok_length (env : Env) :
    ∀ (f : Nat) node s cache k1 k2 k3 acc us fi ca,
    go env f node s cache k1 k2 k3 acc = RunResult.ok us fi ca →
    us.length ≤ acc.length + f := by
  intro f
  induction f with
  | zero =>
    intro node s cache k1 k2 k3 acc us fi ca h
    simp [go] at h
  | succ f ih =>
    intro node s cache k1 k2 k3 acc us fi ca h
    cases node with
    | planner =>
      simp only [go] at h
      cases hp : planner env s with
      | error e => simp [hp] at h
      | ok u =>
        simp only [hp] at h
        cases hr : planner_route (applyUpdate s u) <;> simp only [hr] at h
        case endNode =>
          injection h with h1 h2 h3
          subst h1
          simp
        all_goals
          have := ih _ _ _ _ _ _ _ _ _ _ h
          simp at this
          omega
    | supervisor =>
      simp only [go] at h
      cases hc : (supervisor env k1 s).goto <;> simp only [hc] at h
      case endNode =>
        injection h with h1 h2 h3
        subst h1
        simp
      all_goals
        have := ih _ _ _ _ _ _ _ _ _ _ h
        simp at this
        omega
    | retrieval =>
      simp only [go] at h
      cases hc : (retrieval env k2 s).goto <;> simp only [hc] at h
      case endNode =>
        injection h with h1 h2 h3
        subst h1
        simp
      all_goals
        have := ih _ _ _ _ _ _ _ _ _ _ h
        simp at this
        omega
    | generator =>
      simp only [go] at h
      cases hc : (generator env k3 cache s).1.goto <;> simp only [hc] at h
      case endNode =>
        injection h with h1 h2 h3
        subst h1
        simp
      all_goals
        have := ih _ _ _ _ _ _ _ _ _ _ h
        simp at this
        omega
    | endNode =>
      simp only [go] at h
      injection h with h1 h2 h3
      subst h1
      simp

/-- A successful run extends the accumulated trace, and its final state is
the left fold of the newly executed updates over the entry state. -/
theorem go_ok_updates (env : Env) :
    ∀ (f : Nat) node s cache k1 k2 k3 acc us fi ca,
    go env f node s cache k1 k2 k3 acc = RunResult.ok us fi ca →
    ∃ tail, us = acc.reverse ++ tail ∧
      fi = tail.foldl (fun t p => applyUpdate t p.2) s := by
  intro f
  induction f with
  | zero =>
    intro node s cache k1 k2 k3 acc us fi ca h
    simp [go] at h
  | succ f ih =>
    intro node s cache k1 k2 k3 acc us fi ca h
    cases node with
    | planner =>
      simp only [go] at h
      cases hp : planner env s with
      | error e => simp [hp] at h
      | ok u =>
        simp only [hp] at h
        cases hr : planner_route (applyUpdate s u) <;> simp only [hr] at h
        case endNode =>
          injection h with h1 h2 h3
          subst h1 h2
          exact ⟨[(Node.planner, u)], by simp, rfl⟩
        all_goals
          obtain ⟨tail, htl, hfi⟩ := ih _ _ _ _ _ _ _ _ _ _ h
          exact ⟨(Node.planner, u) :: tail, by simp [htl], by simp [hfi]⟩
    | supervisor =>
      simp only [go] at h
      cases hc : (supervisor env k1 s).goto <;> simp only [hc] at h
      case endNode =>
        injection h with h1 h2 h3
        subst h1 h2
        exact ⟨[(Node.supervisor, (supervisor env k1 s).update)], by simp, rfl⟩
      all_goals
        obtain ⟨tail, htl, hfi⟩ := ih _ _ _ _ _ _ _ _ _ _ h
        exact ⟨(Node.supervisor, (supervisor env k1 s).update) :: tail, by simp [htl], by simp [hfi]⟩
    | retrieval =>
      simp only [go] at h
      cases hc : (retrieval env k2 s).goto <;> simp only [hc] at h
      case endNode =>
        injection h with h1 h2 h3
        subst h1 h2
        exact ⟨[(Node.retrieval, (retrieval env k2 s).update)], by simp, rfl⟩
      all_goals
        obtain ⟨tail, htl, hfi⟩ := ih _ _ _ _ _ _ _ _ _ _ h
        exact ⟨(Node.retrieval, (retrieval env k2 s).update) :: tail, by simp [htl], by simp [hfi]⟩
    | generator =>
      simp only [go] at h
      cases hc : (generator env k3 cache s).1.goto <;> simp only [hc] at h
      case endNode =>
        injection h with h1 h2 h3
        subst h1 h2
        exact ⟨[(Node.generator, (generator env k3 cache s).1.update)], by simp, rfl⟩
      all_goals
        obtain ⟨tail, htl, hfi⟩ := ih _ _ _ _ _ _ _ _ _ _ h
        exact ⟨(Node.generator, (generator env k3 cache s).1.update) :: tail, by simp [htl], by simp [hfi]⟩
    | endNode =>
      simp only [go] at h
      injection h with h1 h2 h3
      subst h1 h2
      exact ⟨[], by simp, rfl⟩

/-- The `response` field of a folded state is the fold of the updates'
`response` values. -/
theorem foldl_applyUpdate_response :
    ∀ (us : List (Node × Update)) (s : ChatState),
    (us.foldl (fun t p => applyUpdate t p.2) s).response =
      us.foldl (fun a p => mergeField p.2.response a) s.response := by
  intro us
  induction us with
  | nil => intro s; rfl
  | cons p us ih =>
    intro s
    simp only [List.foldl_cons]
    rw [ih]
    rfl

/-- When the folded `response` value is a non-empty string, the last chunk
the streaming filter yields is exactly that string. -/
theorem last_yield_eq :
    ∀ (us : List (Node × Update)) (r : String),
    us.foldl (fun a p => mergeField p.2.response a) none = some (some r) →
    r ≠ "" →
    (us.filterMap yield_of).getLast? = some r := by
  intro us
  induction us using List.reverseRecOn with
  | nil =>
    intro r h hr
    simp at h
  | append_singleton us p ih =>
    intro r h hr
    rw [List.foldl_append] at h
    simp only [List.foldl_cons, List.foldl_nil] at h
    rw [List.filterMap_append]
    cases hp : p.2.response with
    | some v =>
      rw [hp] at h
      simp only [mergeField] at h
      injection h with hv
      subst hv
      simp [yield_of, hp, hr]
    | none =>
      rw [hp] at h
      simp only [mergeField] at h
      have : (List.filterMap yield_of [p]) = [] := by simp [yield_of, hp]
      rw [this, List.append_nil]
      exact ih r h hr

/-- The supervisor's routing decision ranges over exactly `retrieval`,
`generator` and `__end__`: the pydantic literal admits nothing else, and
the failure path goes to `__end__`. -/
theorem supervisor_goto_cases (env : Env) (k : Nat) (s : ChatState) :
    (supervisor env k s).goto = Node.retrieval ∨
    (supervisor env k s).goto = Node.generator ∨
    (supervisor env k s).goto = Node.endNode := by
  unfold supervisor run_supervision_chain parse_next_node
  cases env.supCall k (supArgs s) with
  | error e => simp
  | ok raw =>
    by_cases h1 : raw = "retrieval"
    · simp [h1]
    · by_cases h2 : raw = "generator"
      · simp [h1, h2]
      · by_cases h3 : raw = "__end__"
        · simp [h1, h2, h3]
        · simp [h1, h2, h3]

/-- Once execution is past the planner, no node can raise: the supervisor,
retrieval and generator stages absorb their own failures, so the only
error left is the recursion cap. -/
theorem go_err_past_planner (env : Env) :
    ∀ (f : Nat) node s cache k1 k2 k3 acc us e,
    node ≠ Node.planner →
    go env f node s cache k1 k2 k3 acc = RunResult.err us e →
    e = GErr.recursionLimit := by
  intro f
  induction f with
  | zero =>
    intro node s cache k1 k2 k3 acc us e _ h
    simp only [go] at h
    injection h with h1 h2
    exact h2.symm
  | succ f ih =>
    intro node s cache k1 k2 k3 acc us e hnode h
    cases node with
    | planner => exact absurd rfl hnode
    | supervisor =>
      simp only [go] at h
      rcases supervisor_goto_cases env k1 s with hc | hc | hc <;> simp only [hc] at h
      · exact ih _ _ _ _ _ _ _ _ _ (by simp) h
      · exact ih _ _ _ _ _ _ _ _ _ (by simp) h
      · simp at h
    | retrieval =>
      simp only [go] at h
      have hc : (retrieval env k2 s).goto = Node.supervisor := by
        unfold retrieval
        cases similarity_search env k2 s.message with
        | error e => simp
        | ok docs =>
          by_cases hd : docs.length = 0
          · simp [hd]
          · simp [hd]
      simp only [hc] at h
      exact ih _ _ _ _ _ _ _ _ _ (by simp) h
    | generator =>
      simp only [go] at h
      have hc : (generator env k3 cache s).1.goto = Node.supervisor := by
        unfold generator generatorErrCmd
        cases env.getTools k3 with
        | error e => simp
        | ok u =>
          cases env.agentRun k3 s.message with
          | error e => simp
          | ok msgs => simp
      simp only [hc] at h
      exact ih _ _ _ _ _ _ _ _ _ (by simp) h
    | endNode =>
      simp only [go] at h
      exact absurd h (by simp)

/-- The tool names invoked during an agent run, message by message in
order, duplicates preserved: an independent right-fold characterization of
what `extract_tool_calls` collects. -/
def tool_call_names (messages : List AgentMsg) : List String :=
  messages.foldr
    (fun m acc => (m.tool_calls.getD []).map (fun t => t.function_name) ++ acc) []

/-- The content of the last assistant message whose content is non-empty
and not whitespace-only: an independent right-to-left search
characterization of the answer text `extract_tool_calls` picks. -/
def last_nonempty_assistant (messages : List AgentMsg) : Option String :=
  (messages.reverse.find?
    (fun m => m.is_ai && !(m.content == "") && !(strip_is_empty m.content))).map
    (fun m => m.content)

/-- The left fold of list appends used by `extract_tool_calls` projects to
the right-fold characterization of the invoked tool names. -/
theorem foldl_tool_calls_map :
    ∀ (msgs : List AgentMsg) (acc : List ToolCall),
    (msgs.foldl (fun a m => a ++ m.tool_calls.getD []) acc).map
        (fun tool => tool.function_name) =
      acc.map (fun tool => tool.function_name) ++ tool_call_names msgs := by
  intro msgs
  induction msgs with
  | nil => intro acc; simp [tool_call_names]
  | cons m msgs ih =>
    intro acc
    simp only [List.foldl_cons]
    rw [ih]
    simp [tool_call_names, List.map_append, List.append_assoc]

/-- The last element of a filtered list is the first element of the
reversed list satisfying the predicate. -/
theorem filter_getLast_eq_reverse_find {α : Type} (p : α → Bool) :
    ∀ (xs : List α), (xs.filter p).getLast? = xs.reverse.find? p := by
  intro xs
  induction xs using List.reverseRecOn with
  | nil => simp
  | append_singleton xs x ih =>
    rw [List.filter_append, List.reverse_append]
    cases hx : p x with
    | true =>
      have hfx : List.filter p [x] = [x] := by simp [hx]
      rw [hfx, List.getLast?_concat]
      simp [List.find?, hx]
    | false =>
      have hfx : List.filter p [x] = [] := by simp [hx]
      rw [hfx, List.append_nil, ih]
      simp [List.find?, hx]

/-- One-step unfolding of the execution loop at the planner. -/
theorem go_succ_planner (env : Env) (fuel : Nat) (s : ChatState) (cache : CacheMap)
    (k1 k2 k3 : Nat) (acc : List (Node × Update)) :
    go env (fuel + 1) Node.planner s cache k1 k2 k3 acc =
      match planner env s with
      | .error e => .err acc.reverse (.nodeError e)
      | .ok u =>
        match planner_route (applyUpdate s u) with
        | .endNode => .ok ((Node.planner, u) :: acc).reverse (applyUpdate s u) cache
        | next => go env fuel next (applyUpdate s u) cache k1 k2 k3 ((Node.planner, u) :: acc) :=
  rfl

/-- One-step unfolding of the execution loop at the supervisor. -/
theorem go_succ_supervisor (env : Env) (fuel : Nat) (s : ChatState) (cache : CacheMap)
    (k1 k2 k3 : Nat) (acc : List (Node × Update)) :
    go env (fuel + 1) Node.supervisor s cache k1 k2 k3 acc =
      match (supervisor env k1 s).goto with
      | .endNode =>
        .ok ((Node.supervisor, (supervisor env k1 s).update) :: acc).reverse
          (applyUpdate s (supervisor env k1 s).update) cache
      | next =>
        go env fuel next (applyUpdate s (supervisor env k1 s).update) cache
          (k1 + 1) k2 k3 ((Node.supervisor, (supervisor env k1 s).update) :: acc) :=
  rfl

/-- One-step unfolding of the execution loop at the retrieval node. -/
theorem go_succ_retrieval (env : Env) (fuel : Nat) (s : ChatState) (cache : CacheMap)
    (k1 k2 k3 : Nat) (acc : List (Node × Update)) :
    go env (fuel + 1) Node.retrieval s cache k1 k2 k3 acc =
      match (retrieval env k2 s).goto with
      | .endNode =>
        .ok ((Node.retrieval, (retrieval env k2 s).update) :: acc).reverse
          (applyUpdate s (retrieval env k2 s).update) cache
      | next =>
        go env fuel next (applyUpdate s (retrieval env k2 s).update) cache
          k1 (k2 + 1) k3 ((Node.retrieval, (retrieval env k2 s).update) :: acc) :=
  rfl

/-- One-step unfolding of the execution loop at the generator. -/
theorem go_succ_generator (env : Env) (fuel : Nat) (s : ChatState) (cache : CacheMap)
    (k1 k2 k3 : Nat) (acc : List (Node × Update)) :
    go env (fuel + 1) Node.generator s cache k1 k2 k3 acc =
      match (generator env k3 cache s).1.goto with
      | .endNode =>
        .ok ((Node.generator, (generator env k3 cache s).1.update) :: acc).reverse
          (applyUpdate s (generator env k3 cache s).1.update) (generator env k3 cache s).2
      | next =>
        go env fuel next (applyUpdate s (generator env k3 cache s).1.update)
          (generator env k3 cache s).2 k1 k2 (k3 + 1)
          ((Node.generator, (generator env k3 cache s).1.update) :: acc) :=
  rfl

/-- C1: for every request whose message has an existing cache entry, the
workflow short-circuits: the run executes exactly one node — the planner's
cache check — whose update returns the entry's response unchanged together
with the entry's tool list and `is_cached = true`; no retrieval node and
no generator node is ever invoked, and the planner's cache-hit branch
performs no planning call (it consults neither `toolsJson` nor `planCall`,
as its definition shows). -/
theorem C1_cache_hit_short_circuit (env : Env) (user_id message : String)
    (entry : CacheEntry) (h : env.cacheGet message = .ok (some entry)) :
    graph_run env 10 user_id message =
      RunResult.ok
        [(Node.planner,
          { response := some entry.response
            tools_used := some (entry.tools_called.getD [])
            is_cached := some true })]
        { user_id := user_id, message := message
          response := some entry.response
          tools_used := some (entry.tools_called.getD [])
          is_cached := some true }
        [] := by
  have hp : planner env (initState user_id message) =
      .ok { response := some entry.response
            tools_used := some (entry.tools_called.getD [])
            is_cached := some true } := by
    simp [planner, initState, h]
  unfold graph_run
  rw [show (10 : Nat) = 9 + 1 from rfl, go_succ_planner, hp]
  simp [planner_route, applyUpdate, mergeField, initState]

/-- C1 witness: evaluating the run on a concrete cache-hit environment. -/
theorem C1_witness :
    envHit.cacheGet "hello" = .ok (some entryHit) ∧
    graph_run envHit 10 "u1" "hello" =
      RunResult.ok
        [(Node.planner,
          { response := some entryHit.response
            tools_used := some (entryHit.tools_called.getD [])
            is_cached := some true })]
        { user_id := "u1", message := "hello"
          response := some entryHit.response
          tools_used := some (entryHit.tools_called.getD [])
          is_cached := some true }
        [] :=
  ⟨rfl, C1_cache_hit_short_circuit envHit "u1" "hello" entryHit rfl⟩

/-- C3: every supervisor invocation routes to one of exactly three values
— `retrieval`, `generator`, `__end__` (terminate); a raw `next_node`
outside these literals is rejected by the schema validation before it can
be applied; and when the decision call errors (a model failure or such a
rejection) the supervisor does not propagate the exception: it routes to
`__end__` and writes the user-facing apology into `response`. -/
theorem C3_supervisor_decision (env : Env) (k : Nat) (s : ChatState) :
    ((supervisor env k s).goto = Node.retrieval ∨
     (supervisor env k s).goto = Node.generator ∨
     (supervisor env k s).goto = Node.endNode) ∧
    (∀ raw : String, raw ≠ "retrieval" → raw ≠ "generator" → raw ≠ "__end__" →
       parse_next_node raw = none) ∧
    (∀ e : String, run_supervision_chain env k (supArgs s) = .error e →
       supervisor env k s = { goto := Node.endNode, update := supervisorApology }) := by
  refine ⟨supervisor_goto_cases env k s, ?_, ?_⟩
  · intro raw h1 h2 h3
    simp [parse_next_node, h1, h2, h3]
  · intro e he
    simp [supervisor, he]

/-- An environment whose supervision model emits a value outside the
permitted literal set. -/
def envSupBad : Env := { baseEnv with supCall := fun _ _ => .ok "banana" }

/-- C3 witness: a rejected `next_node` value at a concrete input yields
the terminate-with-apology command. -/
theorem C3_witness :
    run_supervision_chain envSupBad 0 (supArgs (initState "u1" "q")) =
      .error "Invalid next_node value: banana" ∧
    supervisor envSupBad 0 (initState "u1" "q") =
      { goto := Node.endNode, update := supervisorApology } :=
  ⟨rfl, (C3_supervisor_decision envSupBad 0 (initState "u1" "q")).2.2 _ rfl⟩

/-- The numbered `"Document i: \n<content>"` blocks, defined by direct
recursion on the document list with a starting index: an independent
characterization of the formatting loop. -/
def numbered_blocks : Nat → List String → List String
  | _, [] => []
  | i, d :: ds => ("Document " ++ toString (i + 1) ++ ": \n" ++ d) :: numbered_blocks (i + 1) ds

/-- The enumerate-and-map formatting of the retrieval node equals the
recursive numbering, so document order is preserved. -/
theorem enumFrom_map_blocks :
    ∀ (docs : List String) (n : Nat),
    (List.enumFrom n docs).map
        (fun p => "Document " ++ toString (p.1 + 1) ++ ": \n" ++ p.2) =
      numbered_blocks n docs := by
  intro docs
  induction docs with
  | nil => intro n; rfl
  | cons d ds ih =>
    intro n
    simp only [List.enumFrom, List.map_cons, numbered_blocks]
    rw [ih]

/-- `formatted_docs` written through the recursive numbering. -/
theorem formatted_docs_eq (docs : List String) :
    formatted_docs docs = String.intercalate "\n\n" (numbered_blocks 0 docs) := by
  unfold formatted_docs
  rw [show docs.enum = List.enumFrom 0 docs from rfl, enumFrom_map_blocks]

/-- C4: for every retrieval invocation, zero passages write exactly the
sentinel `"No documents found for the query."`; `n ≥ 1` passages write the
`"Document i: \n<content>"` blocks joined by blank lines in the order the
index returned them (not re-sorted); a raised search error writes the
empty string; and every case routes back to the supervisor without
propagating an exception. -/
theorem C4_retrieval_contract (env : Env) (k : Nat) (s : ChatState) :
    (similarity_search env k s.message = .ok [] →
       retrieval env k s =
         { goto := Node.supervisor
           update := { retrieved_docs := some "No documents found for the query." } }) ∧
    (∀ docs, docs ≠ [] → similarity_search env k s.message = .ok docs →
       retrieval env k s =
         { goto := Node.supervisor
           update :=
             { retrieved_docs :=
                 some (String.intercalate "\n\n" (numbered_blocks 0 docs)) } }) ∧
    (∀ e, similarity_search env k s.message = .error e →
       retrieval env k s =
         { goto := Node.supervisor, update := { retrieved_docs := some "" } }) ∧
    (retrieval env k s).goto = Node.supervisor := by
  refine ⟨?_, ?_, ?_, ?_⟩
  · intro h
    simp [retrieval, h]
  · intro docs hne h
    have hlen : ¬ docs.length = 0 := by simpa [List.length_eq_zero] using hne
    simp [retrieval, h, hlen, formatted_docs_eq]
  · intro e h
    simp [retrieval, h]
  · unfold retrieval
    cases similarity_search env k s.message with
    | error e => simp
    | ok docs =>
      by_cases hd : docs.length = 0
      · simp [hd]
      · simp [hd]

/-- An environment whose vector search returns two hits, the second with
no `content` key in its payload. -/
def envDocs : Env :=
  { baseEnv with
    qdrantSearch := fun _ _ =>
      Except.ok [{ content := some "AAPL is a stock." }, { content := none }] }

/-- C4 witness: a concrete two-document search formats both blocks in
index order. -/
theorem C4_witness :
    (["AAPL is a stock.", ""] : List String) ≠ [] ∧
    similarity_search envDocs 0 "q" = .ok ["AAPL is a stock.", ""] ∧
    retrieval envDocs 0 (initState "u1" "q") =
      { goto := Node.supervisor
        update :=
          { retrieved_docs :=
              some "Document 1: \nAAPL is a stock.\n\nDocument 2: \n" } } := by
  refine ⟨by simp, rfl, ?_⟩
  have := (C4_retrieval_contract envDocs 0 (initState "u1" "q")).2.1
    ["AAPL is a stock.", ""] (by simp) rfl
  simpa using this

/-- C5: for every generation invocation in which any error is raised (the
tool fetch or the agent run failing), the error is caught locally: the
returned command carries the apology string with the exception text in
`response` and the empty `tools_used`, routes back to the supervisor, and
the cache is left untouched — nothing propagates. -/
theorem C5_generator_error_recovery (env : Env) (k : Nat) (cache : CacheMap)
    (s : ChatState) (e : String)
    (h : env.getTools k = .error e ∨
         (env.getTools k = .ok () ∧ env.agentRun k s.message = .error e)) :
    generator env k cache s =
      ({ goto := Node.supervisor
         update :=
           { response := some (some
               ("Sorry, I encountered an error while generating the response: " ++ e))
             tools_used := some [] } }, cache) := by
  rcases h with h | ⟨h1, h2⟩
  · simp [generator, h, generatorErrCmd]
  · simp [generator, h1, h2, generatorErrCmd]

/-- An environment whose MCP tool fetch raises. -/
def envGenFail : Env := { baseEnv with getTools := fun _ => .error "tool server down" }

/-- C5 witness: the concrete failing generator invocation returns the
apology command and leaves the cache unchanged. -/
theorem C5_witness :
    envGenFail.getTools 0 = .error "tool server down" ∧
    generator envGenFail 0 [] (initState "u1" "q") =
      ({ goto := Node.supervisor
         update :=
           { response := some (some
               ("Sorry, I encountered an error while generating the response: tool server down"))
             tools_used := some [] } }, []) := by
  refine ⟨rfl, ?_⟩
  have := C5_generator_error_recovery envGenFail 0 [] (initState "u1" "q")
    "tool server down" (Or.inl rfl)
  simpa using this

/-- C6: the response returned by a generation invocation never depends on
the outcome of the cache write: two environments that agree on the oracles
feeding the response (`getTools`, `agentRun`) but may differ arbitrarily
in the cache-write outcome (`storeOk`) and every other service produce the
same command — the agent's response is returned unchanged whether or not
the write succeeds. -/
theorem C6_cache_write_never_affects_response (env1 env2 : Env) (k : Nat)
    (cache : CacheMap) (s : ChatState)
    (ht : env1.getTools = env2.getTools) (ha : env1.agentRun = env2.agentRun) :
    (generator env1 k cache s).1 = (generator env2 k cache s).1 := by
  unfold generator
  rw [ht, ha]
  cases env2.getTools k with
  | error e => simp
  | ok u =>
    cases env2.agentRun k s.message with
    | error e => simp
    | ok msgs => simp

/-- The baseline environment with every cache write failing. -/
def envStoreFail : Env := { baseEnv with storeOk := fun _ => false }

/-- C6 witness: the concrete generator command is identical under an
always-succeeding and an always-failing cache write. -/
theorem C6_witness :
    baseEnv.getTools = envStoreFail.getTools ∧
    baseEnv.agentRun = envStoreFail.agentRun ∧
    (generator baseEnv 0 [] (initState "u1" "q")).1 =
      (generator envStoreFail 0 [] (initState "u1" "q")).1 :=
  ⟨rfl, rfl,
    C6_cache_write_never_affects_response baseEnv envStoreFail 0 [] (initState "u1" "q") rfl rfl⟩

/-- The conditional edge after the planner goes to the supervisor or ends
the run; it can reach no other node. -/
theorem planner_route_cases (s : ChatState) :
    planner_route s = Node.supervisor ∨ planner_route s = Node.endNode := by
  unfold planner_route
  by_cases h : s.is_cached = some true
  · simp [h]
  · simp [h]

/-- C2: for every oracle environment and input the workflow terminates
within the configured transition cap of 10: the run either completes —
having executed at most 10 nodes — or stops with an error; and when the
cap is exceeded the caller receives an explicit HTTP 500 failure carrying
the recursion error, never a successful response (so a runaway can never
be mistaken for a normal empty answer). -/
theorem C2_terminates_within_cap (env : Env) (user_id message : String) :
    ((∃ us fi ca, graph_run env 10 user_id message = RunResult.ok us fi ca ∧
        us.length ≤ 10) ∨
     (∃ us e, graph_run env 10 user_id message = RunResult.err us e)) ∧
    (∀ us, graph_run env 10 user_id message = RunResult.err us GErr.recursionLimit →
       chat_response env user_id message =
         HttpResult.err 500 (errStr GErr.recursionLimit) ∧
       ∀ r, chat_response env user_id message ≠ HttpResult.ok r) := by
  constructor
  · cases h : graph_run env 10 user_id message with
    | ok us fi ca =>
      left
      refine ⟨us, fi, ca, rfl, ?_⟩
      unfold graph_run at h
      simpa using go_ok_length env 10 _ _ _ _ _ _ _ _ _ _ h
    | err us e =>
      right
      exact ⟨us, e, rfl⟩
  · intro us h
    have hc : chat_response env user_id message =
        HttpResult.err 500 (errStr GErr.recursionLimit) := by
      unfold chat_response
      rw [h]
    exact ⟨hc, by simp [hc]⟩

/-- The update trace of the concrete capped run, read off the run itself. -/
def usLoop : List (Node × Update) :=
  match graph_run envLoop 10 "u1" "q" with
  | .err us _ => us
  | .ok us _ _ => us

/-- C2 witness: the concrete environment whose supervisor always picks
retrieval exhausts the cap and surfaces as the 500 error. -/
theorem C2_witness :
    graph_run envLoop 10 "u1" "q" = RunResult.err usLoop GErr.recursionLimit ∧
    chat_response envLoop "u1" "q" =
      HttpResult.err 500 (errStr GErr.recursionLimit) := by
  refine ⟨by rfl, ?_⟩
  exact ((C2_terminates_within_cap envLoop "u1" "q").2 usLoop (by rfl)).1

/-- C7: planner failures — the cache lookup, the tool-inventory fetch, or
the planning call erroring — are fatal to the request: the run aborts
before producing any update and the caller receives an HTTP 500 carrying
the exception text.  Conversely, every run error other than the recursion
cap IS a planner failure: the supervisor, retrieval and generation stages
absorb their own errors, so no other stage's failure crosses the outer
boundary as an error. -/
theorem C7_planner_only_fatal (env : Env) (user_id message : String) :
    (∀ e, planner env (initState user_id message) = .error e →
       graph_run env 10 user_id message = RunResult.err [] (GErr.nodeError e) ∧
       chat_response env user_id message = HttpResult.err 500 e) ∧
    (∀ us e, graph_run env 10 user_id message = RunResult.err us (GErr.nodeError e) →
       planner env (initState user_id message) = .error e ∧ us = []) := by
  constructor
  · intro e he
    have hg : graph_run env 10 user_id message = RunResult.err [] (GErr.nodeError e) := by
      unfold graph_run
      rw [show (10 : Nat) = 9 + 1 from rfl, go_succ_planner, he]
      simp
    refine ⟨hg, ?_⟩
    unfold chat_response
    rw [hg]
    rfl
  · intro us e h
    unfold graph_run at h
    rw [show (10 : Nat) = 9 + 1 from rfl, go_succ_planner] at h
    cases hp : planner env (initState user_id message) with
    | error e0 =>
      simp only [hp, List.reverse_nil] at h
      injection h with h1 h2
      injection h2 with h3
      subst h3
      exact ⟨rfl, h1.symm⟩
    | ok u =>
      simp only [hp] at h
      rcases planner_route_cases (applyUpdate (initState user_id message) u) with hr | hr <;>
        simp only [hr] at h
      · have := go_err_past_planner env 9 Node.supervisor _ _ _ _ _ _ _ _ (by simp) h
        simp at this
      · simp at h

/-- C7 witness: the concrete planner failure propagates as the 500 error
with the exception text. -/
theorem C7_witness :
    planner envPlanFail (initState "u1" "q") = .error "boom" ∧
    graph_run envPlanFail 10 "u1" "q" = RunResult.err [] (GErr.nodeError "boom") ∧
    chat_response envPlanFail "u1" "q" = HttpResult.err 500 "boom" :=
  ⟨rfl, (C7_planner_only_fatal envPlanFail "u1" "q").1 "boom" rfl⟩

/-- A concrete agent output that invokes the same tool twice before
answering. -/
def msgsDup : List AgentMsg :=
  [{ is_ai := true, content := "", tool_calls := some [{ function_name := "get_stock_price" }] },
   { is_ai := false, content := "price is 10", tool_calls := none },
   { is_ai := true, content := "", tool_calls := some [{ function_name := "get_stock_price" }] },
   { is_ai := false, content := "price is 11", tool_calls := none },
   { is_ai := true, content := "Final answer.", tool_calls := none }]

/-- An environment whose agent produces the duplicated tool calls. -/
def envDup : Env := { baseEnv with agentRun := fun _ _ => .ok msgsDup }

/-- C8 counterexample: `extract_tool_calls` performs no deduplication, so
on an agent run that invokes `get_stock_price` twice the generator writes
a `tools_used` list containing a duplicate — refuting the claim that the
written list holds distinct tool names. -/
theorem C8_counterexample :
    (extract_tool_calls msgsDup).1 = ["get_stock_price", "get_stock_price"] ∧
    ¬ (extract_tool_calls msgsDup).1.Nodup ∧
    (generator envDup 0 [] (initState "u1" "q")).1.update.tools_used =
      some ["get_stock_price", "get_stock_price"] := by
  refine ⟨rfl, by decide, rfl⟩

/-- C8 (amended): for every successful generation invocation, `tools_used`
is the ordered list of all tool names invoked by the agent, in invocation
order with duplicates preserved (no deduplication happens), and `response`
is the content of the final assistant message whose content is non-empty
and not whitespace-only (`None` when there is no such message). -/
theorem C8_generator_extraction (env : Env) (k : Nat) (cache : CacheMap)
    (s : ChatState) (msgs : List AgentMsg)
    (ht : env.getTools k = .ok ()) (ha : env.agentRun k s.message = .ok msgs) :
    (generator env k cache s).1 =
      { goto := Node.supervisor
        update :=
          { response := some (last_nonempty_assistant msgs)
            tools_used := some (tool_call_names msgs) } } := by
  have h1 : (extract_tool_calls msgs).1 = tool_call_names msgs := by
    unfold extract_tool_calls
    simpa using foldl_tool_calls_map msgs []
  have h2 : (extract_tool_calls msgs).2 = last_nonempty_assistant msgs := by
    simp only [extract_tool_calls, last_nonempty_assistant]
    rw [filter_getLast_eq_reverse_find]
  simp only [generator, ht, ha]
  simp [h1, h2]

/-- C8 witness: the amended extraction evaluated on the concrete
duplicated agent run. -/
theorem C8_witness :
    envDup.getTools 0 = .ok () ∧
    envDup.agentRun 0 "q" = .ok msgsDup ∧
    (generator envDup 0 [] (initState "u1" "q")).1 =
      { goto := Node.supervisor
        update :=
          { response := some (last_nonempty_assistant msgsDup)
            tools_used := some (tool_call_names msgsDup) } } :=
  ⟨rfl, rfl, C8_generator_extraction envDup 0 [] (initState "u1" "q") msgsDup rfl rfl⟩

/-- C10: when the agent output contains no assistant (`AIMessage`) entry
with non-blank content, `extract_tool_calls` returns `None` as the final
answer text; the generation stage then writes `None` — not a string —
into the state's `response` field and stores `None` in the cache entry, so
the public contract that `response` is a string is not guaranteed. -/
theorem C10_generator_none_response (env : Env) (k : Nat) (cache : CacheMap)
    (s : ChatState) (msgs : List AgentMsg)
    (ht : env.getTools k = .ok ()) (ha : env.agentRun k s.message = .ok msgs)
    (hno : ∀ m ∈ msgs,
      (m.is_ai && !(m.content == "") && !(strip_is_empty m.content)) = false) :
    (extract_tool_calls msgs).2 = none ∧
    (generator env k cache s).1.update.response = some none ∧
    (env.storeOk k = true →
       (generator env k cache s).2 =
         (s.message,
           { response := none
             tools_called := some (extract_tool_calls msgs).1 }) :: cache) := by
  have h2 : (extract_tool_calls msgs).2 = none := by
    unfold extract_tool_calls
    have hf : msgs.filter
        (fun m => m.is_ai && !(m.content == "") && !(strip_is_empty m.content)) = [] :=
      List.filter_eq_nil_iff.mpr (by intro a hmem; simp [hno a hmem])
    simp [hf]
  refine ⟨h2, ?_, ?_⟩
  · simp [generator, ht, ha, h2]
  · intro hst
    simp [generator, ht, ha, h2, store, hst]

/-- A concrete agent output whose only assistant message is
whitespace-only: a tool is invoked but no final answer is produced. -/
def msgsNone : List AgentMsg :=
  [{ is_ai := true, content := "  ", tool_calls := some [{ function_name := "search_tool" }] },
   { is_ai := false, content := "tool output", tool_calls := none }]

/-- An environment whose agent produces no usable assistant message. -/
def envNone : Env := { baseEnv with agentRun := fun _ _ => .ok msgsNone }

/-- C10 witness: the concrete no-answer agent run makes the generator
write `None` into `response` and cache `None`. -/
theorem C10_witness :
    envNone.getTools 0 = .ok () ∧
    envNone.agentRun 0 "q" = .ok msgsNone ∧
    (∀ m ∈ msgsNone,
      (m.is_ai && !(m.content == "") && !(strip_is_empty m.content)) = false) ∧
    (extract_tool_calls msgsNone).2 = none ∧
    (generator envNone 0 [] (initState "u1" "q")).1.update.response = some none ∧
    (generator envNone 0 [] (initState "u1" "q")).2 =
      ("q", { response := none, tools_called := some ["search_tool"] }) :: [] := by
  refine ⟨rfl, rfl, by decide, ?_, ?_, ?_⟩
  · exact (C10_generator_none_response envNone 0 [] (initState "u1" "q") msgsNone
      rfl rfl (by decide)).1
  · exact (C10_generator_none_response envNone 0 [] (initState "u1" "q") msgsNone
      rfl rfl (by decide)).2.1
  · exact (C10_generator_none_response envNone 0 [] (initState "u1" "q") msgsNone
      rfl rfl (by decide)).2.2 rfl

/-- C9 counterexample: at the concrete input whose planner fails, the
non-streaming entry point produces no response record at all — it raises
HTTP 500 with the exception text — while the streaming entry point
completes with HTTP 200 and yields the single fragment `"Error: boom"`.
The streaming entry point's final output is therefore not the record the
non-streaming entry point produces, refuting the claim as stated for
every input. -/
theorem C9_counterexample :
    chat_response envPlanFail "u1" "q" = HttpResult.err 500 "boom" ∧
    (∀ r, chat_response envPlanFail "u1" "q" ≠ HttpResult.ok r) ∧
    stream_chunks envPlanFail "u1" "q" = ["Error: boom"] ∧
    stream_status envPlanFail "u1" "q" = 200 := by
  refine ⟨rfl, ?_, rfl, rfl⟩
  intro r h
  exact HttpResult.noConfusion
    ((show chat_response envPlanFail "u1" "q" = HttpResult.err 500 "boom" from rfl).symm.trans h)

/-- C9 (amended): for every input whose non-streaming run completes
successfully with a non-empty response, streaming is equivalent: the
streamed run — which passes no cap and therefore gets the graph library's
default recursion limit of 25, which can only widen a run that fit within
10 — executes the same node sequence to the same final record, the yielded
chunks are exactly the truthy `response` updates in execution order, and
the last yielded chunk equals the response the non-streaming endpoint
returns.  When the run errors the two entry points diverge (HTTP 500
versus an `"Error: ..."` chunk inside a 200 stream). -/
theorem C9_stream_refines_invoke (env : Env) (user_id message : String)
    (us : List (Node × Update)) (fi : ChatState) (ca : CacheMap) (r : String)
    (hrun : graph_run env 10 user_id message = RunResult.ok us fi ca)
    (hresp : fi.response = some (some r)) (hne : r ≠ "") :
    chat_response env user_id message = HttpResult.ok r ∧
    graph_run env 25 user_id message = RunResult.ok us fi ca ∧
    stream_chunks env user_id message = us.filterMap yield_of ∧
    (stream_chunks env user_id message).getLast? = some r ∧
    stream_status env user_id message = 200 := by
  have h25 : graph_run env 25 user_id message = RunResult.ok us fi ca := by
    unfold graph_run at hrun ⊢
    exact go_mono env 10 25 (by omega) _ _ _ _ _ _ _ _ _ _ hrun
  have hchunks : stream_chunks env user_id message = us.filterMap yield_of := by
    unfold stream_chunks
    rw [h25]
  have hfold : fi.response = us.foldl (fun a p => mergeField p.2.response a) none := by
    unfold graph_run at hrun
    obtain ⟨tail, htl, hfi⟩ := go_ok_updates env 10 _ _ _ _ _ _ _ _ _ _ hrun
    simp only [List.reverse_nil, List.nil_append] at htl
    subst htl
    rw [hfi, foldl_applyUpdate_response]
    rfl
  have hlast : (us.filterMap yield_of).getLast? = some r :=
    last_yield_eq us r (hfold.symm.trans hresp) hne
  refine ⟨?_, h25, hchunks, by rw [hchunks]; exact hlast, rfl⟩
  unfold chat_response
  rw [hrun]
  simp [hresp]

/-- The update trace of the concrete cache-hit run. -/
def usHit : List (Node × Update) :=
  [(Node.planner,
    { response := some (some "cached answer")
      tools_used := some ["stock_tool"]
      is_cached := some true })]

/-- The final state of the concrete cache-hit run. -/
def fiHit : ChatState :=
  { user_id := "u1", message := "hello"
    response := some (some "cached answer")
    tools_used := some ["stock_tool"]
    is_cached := some true }

/-- C9 witness: on the concrete cache-hit input both entry points agree —
the non-streaming endpoint returns the response and the stream yields
exactly that response as its last (and only) chunk. -/
theorem C9_witness :
    graph_run envHit 10 "u1" "hello" = RunResult.ok usHit fiHit [] ∧
    fiHit.response = some (some "cached answer") ∧
    ("cached answer" : String) ≠ "" ∧
    chat_response envHit "u1" "hello" = HttpResult.ok "cached answer" ∧
    stream_chunks envHit "u1" "hello" = ["cached answer"] ∧
    (stream_chunks envHit "u1" "hello").getLast? = some "cached answer" := by
  have h := C9_stream_refines_invoke envHit "u1" "hello" usHit fiHit [] "cached answer"
    rfl rfl (by decide)
  refine ⟨rfl, rfl, by decide, h.1, ?_, h.2.2.2.1⟩
  rw [h.2.2.1]
  rfl
